import Mathlib

/-!
Verification of `src/excel_to_mysql.py` against its specification.

The Python program is embedded shallowly: pure computations (column-name
sanitization, SQL statement construction, cell-value conversion) become Lean
functions, and the effectful pipeline (config loading, connecting, table
creation, row insertion, `main`) becomes functions from explicit outcome
oracles (what the file system, pandas and the MySQL driver would do) to a
record of the Python return value plus the list of observable events
(log lines, prints, SQL executions, commits, file writes, process exit).
Python exceptions are modelled with `Except`: an `Except.error` that escapes a
function models an exception propagating past that function's boundary, and
`try/except Error` blocks catch exactly the `dbError` kind, mirroring
`except mysql.connector.Error`.
-/

namespace ExcelToMysql

/-- Components of a `pandas.Timestamp` (naive, nanosecond resolution). -/
structure Ts where
  year : Nat
  month : Nat
  day : Nat
  hour : Nat
  minute : Nat
  second : Nat
  nanosecond : Nat
  deriving DecidableEq

/-- The decimal digit character for `d % 10`. -/
def digitChar (d : Nat) : Char := Char.ofNat (48 + d % 10)

/-- Zero-padded two-digit field, as `strftime` renders `%m %d %H %M %S` for
in-range values (0..99). -/
def pad2 (n : Nat) : List Char := [digitChar (n / 10), digitChar n]

/-- Zero-padded four-digit field, as `strftime` renders `%Y` for in-range
years (pandas timestamps lie in 1677..2262). -/
def pad4 (n : Nat) : List Char :=
  [digitChar (n / 1000), digitChar (n / 100), digitChar (n / 10), digitChar n]

/-- Embeds `val.strftime('%Y-%m-%d %H:%M:%S')` on a `pandas.Timestamp`:
seconds are whole (the nanosecond component is not rendered) and no timezone
field appears in the format string. -/
def Ts.strftime (t : Ts) : String :=
  String.mk (pad4 t.year ++ '-' ::
    (pad2 t.month ++ '-' ::
      (pad2 t.day ++ ' ' ::
        (pad2 t.hour ++ ':' ::
          (pad2 t.minute ++ ':' :: pad2 t.second)))))

/-- Component ranges of an actual `pandas.Timestamp`; on this domain the
`pad2`/`pad4` renderings agree with C `strftime` zero padding. -/
def Ts.valid (t : Ts) : Bool :=
  t.year ≤ 9999 && 1 ≤ t.month && t.month ≤ 12 && 1 ≤ t.day && t.day ≤ 31 &&
    t.hour ≤ 23 && t.minute ≤ 59 && t.second ≤ 59

/-- Does the string match `YYYY-MM-DD HH:MM:SS` exactly: nineteen characters,
digits in the date and time fields, the literal separators, no fractional
seconds and no timezone suffix? -/
def formatOk (s : String) : Bool :=
  match s.data with
  | [y1, y2, y3, y4, a, mo1, mo2, b, d1, d2, c, h1, h2, e1, mi1, mi2, f1, s1, s2] =>
      y1.isDigit && y2.isDigit && y3.isDigit && y4.isDigit && a == '-' &&
      mo1.isDigit && mo2.isDigit && b == '-' && d1.isDigit && d2.isDigit &&
      c == ' ' && h1.isDigit && h2.isDigit && e1 == ':' && mi1.isDigit &&
      mi2.isDigit && f1 == ':' && s1.isDigit && s2.isDigit
  | _ => false

/-- One cell of the DataFrame: missing (`NaN`/`NaT`, i.e. `pd.isna` holds), a
`pandas.Timestamp`, or any other value, carried as the string Python `str`
would produce for it. -/
inductive Cell where
  | nan : Cell
  | timestamp : Ts → Cell
  | other : String → Cell
  deriving DecidableEq

/-- Embeds `convert_timestamp` (lines 98-105): `pd.isna(val)` gives `None`,
a `pd.Timestamp` is formatted, anything else becomes `str(val)`.  The Python
return value `None` is `none`; a returned string `s` is `some s`. -/
def convert_timestamp : Cell → Option String
  | Cell.nan => none
  | Cell.timestamp t => some t.strftime
  | Cell.other s => some s

/-- Python `str.replace` for a single-character pattern and single-character
replacement: replace every occurrence, character by character. -/
def replaceChar (l : List Char) (a b : Char) : List Char :=
  l.map fun c => if c = a then b else c

/-- Embeds the header cleaning of line 80:
`col.replace(' ', '_').replace('-', '_').replace('.', '_')`. -/
def sanitizeHeader (col : String) : String :=
  String.mk (replaceChar (replaceChar (replaceChar col.data ' ' '_') '-' '_') '.' '_')

/-- Embeds the full column expression of line 80: the sanitized header
wrapped in backquotes. -/
def quoteCol (col : String) : String := "`" ++ sanitizeHeader col ++ "`"

/-- Modelled from the spec's words (section 3 / testable property 1): replace
each space, hyphen and period by underscore, leaving every other character
unchanged.  Used only to compare against `sanitizeHeader`. -/
def specSanitizeChar (c : Char) : Char :=
  if c = ' ' ∨ c = '-' ∨ c = '.' then '_' else c

/-- Python `sep.join(parts)`. -/
def joinSep (sep : String) : List String → String
  | [] => ""
  | [x] => x
  | x :: y :: xs => x ++ sep ++ joinSep sep (y :: xs)

/-- Number of occurrences of the character `c` in a character list. -/
def countChar (c : Char) : List Char → Nat
  | [] => 0
  | x :: xs => (if x = c then 1 else 0) + countChar c xs

/-- Embeds the statement built on lines 83-85. -/
def create_table_sql (tableName : String) (columns : List String) : String :=
  "CREATE TABLE IF NOT EXISTS " ++ tableName ++
    " (id INT AUTO_INCREMENT PRIMARY KEY, " ++
    joinSep ", " (columns.map fun col => col ++ " TEXT") ++ ")"

/-- Embeds the statement built on lines 113-114: one `%s` placeholder per
column name, placeholders comma-joined, column list comma-joined. -/
def insert_sql (tableName : String) (columns : List String) : String :=
  "INSERT INTO " ++ tableName ++ " (" ++ joinSep ", " columns ++ ") VALUES (" ++
    joinSep ", " (List.replicate columns.length "%s") ++ ")"

/-- The in-memory DataFrame: ordered headers and rows of cells. -/
structure Dataset where
  headers : List String
  rows : List (List Cell)
  deriving DecidableEq

/-- Python exceptions, by the classification the program's `except` clauses
care about: `dbError` is `mysql.connector.Error`; `ioError` is an `OSError`
raised reading the source file; `parseError` is a pandas/openpyxl error on a
malformed spreadsheet.  Only `dbError` is caught by `except Error`. -/
inductive Exc where
  | dbError : String → Exc
  | ioError : String → Exc
  | parseError : String → Exc
  deriving DecidableEq

/-- Does `except mysql.connector.Error` catch this exception? -/
def Exc.isDbError : Exc → Bool
  | Exc.dbError _ => true
  | _ => false

/-- Message text of the exception, as interpolated into log lines. -/
def Exc.msg : Exc → String
  | Exc.dbError m => m
  | Exc.ioError m => m
  | Exc.parseError m => m

/-- The configuration record returned by `read_config` (lines 27-34) and
written by `create_default_config` (lines 36-51). -/
structure Config where
  host : String
  database : String
  user : String
  password : String
  table : String
  excel_file : String
  deriving DecidableEq

/-- The template written by `create_default_config` (lines 39-48). -/
def default_config : Config :=
  { host := "localhost", database := "your_database", user := "your_username",
    password := "your_password", table := "form_responses",
    excel_file := "google_form_responses.xlsx" }

/-- Observable events of a run, in order. -/
inductive Event where
  | log : String → Event
  | logError : String → Event
  | print : String → Event
  | writeConfig : String → Config → Event
  | connectAttempt : Event
  | sqlExec : String → Event
  | sqlExecParams : String → List (Option String) → Event
  | commit : Event
  | closeConn : Event
  deriving DecidableEq

/-- Is this event an execution of the parameterized insert statement? -/
def Event.isInsertExec : Event → Bool
  | Event.sqlExecParams _ _ => true
  | _ => false

/-- Is this event an execution of the create-table statement? -/
def Event.isCreateExec : Event → Bool
  | Event.sqlExec _ => true
  | _ => false

/-- Is this event a connection attempt to the database? -/
def Event.isConnect : Event → Bool
  | Event.connectAttempt => true
  | _ => false

/-- Is this event a transaction commit? -/
def Event.isCommit : Event → Bool
  | Event.commit => true
  | _ => false

/-- Result of `read_config` (lines 16-34): either the parsed configuration,
or `none` together with a process exit code after writing the template. -/
structure ReadConfigRun where
  result : Option Config
  events : List Event
  exitCode : Option Nat
  deriving DecidableEq

/-- Embeds `read_config` (lines 16-34).  `configExists` is whether
`os.path.exists(config_file)` holds; `stored` is the configuration the
existing file parses to.  When the file is missing, `create_default_config`
writes the template (lines 36-51), two messages are printed, and the process
exits with status 1. -/
def read_config (configExists : Bool) (stored : Config) (configFile : String) :
    ReadConfigRun :=
  if configExists then
    { result := some stored, events := [], exitCode := none }
  else
    { result := none,
      events := [Event.writeConfig configFile default_config,
        Event.log ("Created default config file: " ++ configFile),
        Event.print ("Created default config file: " ++ configFile),
        Event.print "Please update the config file with your database credentials and try again."],
      exitCode := some 1 }

/-- What `mysql.connector.connect` plus `connection.is_connected()` do:
connect and report connected, connect but report not connected, or raise
`mysql.connector.Error` with the given cause text. -/
inductive ConnectOutcome where
  | connected : ConnectOutcome
  | notConnected : ConnectOutcome
  | failure : String → ConnectOutcome
  deriving DecidableEq

/-- Result of `connect_to_database`: `some ()` stands for the open connection
object, `none` for the Python `None`. -/
structure ConnectRun where
  result : Option Unit
  events : List Event
  deriving DecidableEq

/-- Embeds `connect_to_database` (lines 53-68).  All connection-level
failures (auth rejected, host unreachable, database missing) raise
`mysql.connector.Error`, which the `except Error` clause catches: it logs the
cause, prints it, and returns `None`.  When `is_connected()` is false the
function falls through and implicitly returns `None`. -/
def connect_to_database (outcome : ConnectOutcome) : ConnectRun :=
  match outcome with
  | ConnectOutcome.connected =>
      { result := some (),
        events := [Event.connectAttempt, Event.log "Connected to MySQL database"] }
  | ConnectOutcome.notConnected =>
      { result := none, events := [Event.connectAttempt] }
  | ConnectOutcome.failure cause =>
      { result := none,
        events := [Event.connectAttempt,
          Event.logError ("Error connecting to MySQL database: " ++ cause),
          Event.print ("Error connecting to MySQL database: " ++ cause)] }

/-- Result of `create_table_if_not_exists`: `Except.ok (some (df, columns))`
for a successful `return df, columns`, `Except.ok none` for the
`return None, None` of the handler, `Except.error e` for an exception that
escapes the function. -/
structure SchemaRun where
  result : Except Exc (Option (Dataset × List String))
  events : List Event

/-- Embeds `create_table_if_not_exists` (lines 70-96).  `readResult` is what
`pd.read_excel` does (the Dataset, or a raised exception); `execOutcome` is
what `cursor.execute` does on the given statement; `commitOutcome` is what
`connection.commit` does.  The `except Error` clause catches only
`Exc.isDbError` exceptions; any other exception raised inside the `try` body
escapes as `Except.error`. -/
def create_table_if_not_exists (readResult : Except Exc Dataset)
    (execOutcome : String → Except Exc Unit) (commitOutcome : Except Exc Unit)
    (tableName : String) : SchemaRun :=
  match readResult with
  | Except.error e =>
      if e.isDbError then
        { result := Except.ok none,
          events := [Event.logError ("Error creating table: " ++ e.msg),
            Event.print ("Error creating table: " ++ e.msg)] }
      else
        { result := Except.error e, events := [] }
  | Except.ok df =>
      let columns := df.headers.map quoteCol
      let sql := create_table_sql tableName columns
      match execOutcome sql with
      | Except.error e =>
          if e.isDbError then
            { result := Except.ok none,
              events := [Event.log "DataFrame info", Event.sqlExec sql,
                Event.logError ("Error creating table: " ++ e.msg),
                Event.print ("Error creating table: " ++ e.msg)] }
          else
            { result := Except.error e,
              events := [Event.log "DataFrame info", Event.sqlExec sql] }
      | Except.ok _ =>
          match commitOutcome with
          | Except.error e =>
              if e.isDbError then
                { result := Except.ok none,
                  events := [Event.log "DataFrame info", Event.sqlExec sql,
                    Event.logError ("Error creating table: " ++ e.msg),
                    Event.print ("Error creating table: " ++ e.msg)] }
              else
                { result := Except.error e,
                  events := [Event.log "DataFrame info", Event.sqlExec sql] }
          | Except.ok _ =>
              { result := Except.ok (some (df, columns)),
                events := [Event.log "DataFrame info", Event.sqlExec sql,
                  Event.commit,
                  Event.log ("Table " ++ tableName ++ " created or already exists")] }

/-- One `cursor.execute(insert_sql, tuple(values))` invocation. -/
structure ExecCall where
  sql : String
  params : List (Option String)
  deriving DecidableEq

/-- Result of `insert_data`: the Python return value (`True`/`False`, or an
escaping exception), the execute calls issued in order, whether the final
commit happened, and the log/print events. -/
structure InsertRun where
  result : Except Exc Bool
  calls : List ExecCall
  committed : Bool
  events : List Event

/-- The row loop of `insert_data` (lines 117-122): rows in order, each cell
converted by `convert_timestamp`, `rowExec k vals` being what
`cursor.execute` does on the `k`-th row (0-based) with parameters `vals`.
Returns the calls issued and either the final `records` count or the raised
exception. -/
def insertLoop (sql : String)
    (rowExec : Nat → List (Option String) → Except Exc Unit) :
    List (List Cell) → Nat → List ExecCall × Except Exc Nat
  | [], n => ([], Except.ok n)
  | r :: rs, n =>
      match rowExec n (r.map convert_timestamp) with
      | Except.error e => ([⟨sql, r.map convert_timestamp⟩], Except.error e)
      | Except.ok _ =>
          (⟨sql, r.map convert_timestamp⟩ :: (insertLoop sql rowExec rs (n + 1)).1,
            (insertLoop sql rowExec rs (n + 1)).2)

/-- Embeds `insert_data` (lines 107-132).  On full success it commits, logs
and prints the record count, and returns `True`; a `mysql.connector.Error`
raised by an execute or by the commit is caught, logged, printed, and `False`
is returned; any other exception escapes. -/
def insert_data (df : Dataset) (columns : List String) (tableName : String)
    (rowExec : Nat → List (Option String) → Except Exc Unit)
    (commitOutcome : Except Exc Unit) : InsertRun :=
  match insertLoop (insert_sql tableName columns) rowExec df.rows 0 with
  | (calls, Except.error e) =>
      if e.isDbError then
        { result := Except.ok false, calls := calls, committed := false,
          events := [Event.logError ("Error inserting data: " ++ e.msg),
            Event.print ("Error inserting data: " ++ e.msg)] }
      else
        { result := Except.error e, calls := calls, committed := false,
          events := [] }
  | (calls, Except.ok records) =>
      match commitOutcome with
      | Except.error e =>
          if e.isDbError then
            { result := Except.ok false, calls := calls, committed := false,
              events := [Event.logError ("Error inserting data: " ++ e.msg),
                Event.print ("Error inserting data: " ++ e.msg)] }
          else
            { result := Except.error e, calls := calls, committed := false,
              events := [] }
      | Except.ok _ =>
          { result := Except.ok true, calls := calls, committed := true,
            events := [Event.commit,
              Event.log ("Successfully inserted " ++ toString records ++
                " records into " ++ tableName),
              Event.print ("Successfully inserted " ++ toString records ++
                " records into " ++ tableName)] }

/-- The environment a run of `main` faces: whether the config file exists and
what it parses to, and the outcomes of the driver and pandas calls. -/
structure Env where
  configExists : Bool
  storedConfig : Config
  connect : ConnectOutcome
  readExcel : Except Exc Dataset
  createExec : String → Except Exc Unit
  createCommit : Except Exc Unit
  rowExec : Nat → List (Option String) → Except Exc Unit
  insertCommit : Except Exc Unit

/-- Result of `main`: the event trace, the process exit code when `exit` was
called, and an exception that escaped `main` uncaught (a crash), if any. -/
structure MainRun where
  events : List Event
  exitCode : Option Nat
  uncaught : Option Exc

/-- Embeds `main` (lines 134-170): read config (exiting if it was just
created), connect (returning if `None`), sync the schema (closing and
returning on the null pair), insert, close, and print the final message.
The per-column dtype log lines (154-156) are collapsed into one event. -/
def main (env : Env) : MainRun :=
  let startEvents := [Event.print "Starting Excel to MySQL data transfer...",
    Event.log "Starting Excel to MySQL data transfer"]
  let rc := read_config env.configExists env.storedConfig "config.ini"
  match rc.result with
  | none => ⟨startEvents ++ rc.events, rc.exitCode, none⟩
  | some config =>
    let cr := connect_to_database env.connect
    match cr.result with
    | none => ⟨startEvents ++ rc.events ++ cr.events, none, none⟩
    | some _ =>
      let sr := create_table_if_not_exists env.readExcel env.createExec
        env.createCommit config.table
      match sr.result with
      | Except.error e =>
          ⟨startEvents ++ rc.events ++ cr.events ++ sr.events, none, some e⟩
      | Except.ok none =>
          ⟨startEvents ++ rc.events ++ cr.events ++ sr.events ++
            [Event.closeConn], none, none⟩
      | Except.ok (some (df, columns)) =>
          let ir := insert_data df columns config.table env.rowExec
            env.insertCommit
          match ir.result with
          | Except.error e =>
              ⟨startEvents ++ rc.events ++ cr.events ++ sr.events ++
                [Event.log "DataFrame data types"] ++ ir.events, none, some e⟩
          | Except.ok success =>
              let finalEvents :=
                if success then
                  [Event.print "Data transfer completed successfully!",
                    Event.log "Data transfer completed successfully"]
                else
                  [Event.print "Data transfer failed. Check log file for details.",
                    Event.logError "Data transfer failed"]
              ⟨startEvents ++ rc.events ++ cr.events ++ sr.events ++
                [Event.log "DataFrame data types"] ++ ir.events ++
                [Event.closeConn, Event.log "Database connection closed"] ++
                finalEvents, none, none⟩

/-- Database states for the modelled MySQL server: the set of existing
tables, each with its column list. -/
abbrev Db : Type := List (String × List String)

/-- Does a table with this name exist? -/
def Db.hasTable (db : Db) (name : String) : Bool :=
  db.any fun t => t.1 == name

/-- Modelled MySQL semantics of `CREATE TABLE IF NOT EXISTS`: a no-op when a
table with that name already exists, otherwise the table is created.  The
statement never errors on an existing table. -/
def execCreateIfNotExists (db : Db) (name : String) (cols : List String) : Db :=
  if db.hasTable name then db else (name, cols) :: db

/-- Appending strings appends their character lists. -/
lemma data_append (s t : String) : (s ++ t).data = s.data ++ t.data := rfl

/-- Character counts add over list append. -/
lemma countChar_append (c : Char) (l₁ l₂ : List Char) :
    countChar c (l₁ ++ l₂) = countChar c l₁ + countChar c l₂ := by
  induction l₁ with
  | nil => simp [countChar]
  | cons x xs ih => simp [countChar, ih]; omega

/-- Mapping a function that never produces a character keeps its count at
zero. -/
lemma countChar_map_zero (f : Char → Char) (hf : ∀ c, c ≠ '%' → f c ≠ '%')
    (l : List Char) (h : countChar '%' l = 0) : countChar '%' (l.map f) = 0 := by
  induction l with
  | nil => simp [countChar]
  | cons x xs ih =>
    by_cases hx : x = '%'
    · rw [hx] at h; simp [countChar] at h
    · simp only [countChar, hx, if_false, Nat.zero_add] at h
      simp only [List.map_cons, countChar, hf x hx, if_false, Nat.zero_add]
      exact ih h

/-- Joining strings that contain no percent sign with `", "` yields a string
with no percent sign. -/
lemma countChar_joinSep_zero (l : List String)
    (h : ∀ s ∈ l, countChar '%' s.data = 0) :
    countChar '%' (joinSep ", " l).data = 0 := by
  induction l with
  | nil => decide
  | cons x xs ih =>
    cases xs with
    | nil => simpa [joinSep] using h x (by simp)
    | cons y ys =>
      have hx := h x (by simp)
      have hrest : ∀ s ∈ y :: ys, countChar '%' s.data = 0 := fun s hs =>
        h s (List.mem_cons_of_mem _ hs)
      have hsep : countChar '%' ", ".data = 0 := by decide
      calc countChar '%' (joinSep ", " (x :: y :: ys)).data
          = countChar '%' ((x ++ ", ") ++ joinSep ", " (y :: ys)).data := rfl
        _ = countChar '%' (x.data ++ ", ".data ++ (joinSep ", " (y :: ys)).data) := by
            rw [data_append, data_append]
        _ = 0 := by
            rw [countChar_append, countChar_append, hx, hsep, ih hrest]

/-- The comma-joined placeholder list `%s, %s, ..., %s` contains exactly one
percent sign per placeholder. -/
lemma countChar_joinSep_placeholders (n : Nat) :
    countChar '%' (joinSep ", " (List.replicate n "%s")).data = n := by
  induction n with
  | zero => decide
  | succ m ih =>
    cases m with
    | zero => decide
    | succ k =>
      have hstep : joinSep ", " (List.replicate (k + 2) "%s") =
          ("%s" ++ ", ") ++ joinSep ", " (List.replicate (k + 1) "%s") := rfl
      rw [hstep, data_append, data_append, countChar_append, countChar_append, ih]
      have e1 : countChar '%' "%s".data = 1 := by decide
      have e2 : countChar '%' ", ".data = 0 := by decide
      omega

/-- Quoting a sanitized header introduces no percent sign: the backquotes are
not percent signs and sanitization only turns characters into underscores. -/
lemma quoteCol_percent (s : String) (h : countChar '%' s.data = 0) :
    countChar '%' (quoteCol s).data = 0 := by
  have hf : ∀ a : Char, ∀ c, c ≠ '%' → (if c = a then '_' else c) ≠ '%' := by
    intro a c hc
    by_cases hca : c = a
    · simp [hca]
    · simp [hca, hc]
  have h1 := countChar_map_zero _ (hf ' ') s.data h
  have h2 := countChar_map_zero _ (hf '-') _ h1
  have h3 := countChar_map_zero _ (hf '.') _ h2
  calc countChar '%' (quoteCol s).data
      = countChar '%' ("`".data ++ (sanitizeHeader s).data ++ "`".data) := by
        rw [quoteCol, data_append, data_append]
    _ = 0 := by
        rw [countChar_append, countChar_append]
        have hb : countChar '%' "`".data = 0 := by decide
        rw [hb]
        show 0 + countChar '%' (((s.data.map _).map _).map _) + 0 = 0
        rw [h3]

/-- The full parameterized insert statement contains exactly one percent sign
(hence one `%s` placeholder) per column, provided neither the table name nor
any column name contains a percent sign. -/
lemma insert_sql_percent (t : String) (cols : List String)
    (ht : countChar '%' t.data = 0)
    (hc : ∀ c ∈ cols, countChar '%' c.data = 0) :
    countChar '%' (insert_sql t cols).data = cols.length := by
  have h1 : countChar '%' "INSERT INTO ".data = 0 := by decide
  have h2 : countChar '%' " (".data = 0 := by decide
  have h3 : countChar '%' ") VALUES (".data = 0 := by decide
  have h4 : countChar '%' ")".data = 0 := by decide
  calc countChar '%' (insert_sql t cols).data
      = countChar '%' ("INSERT INTO ".data ++ t.data ++ " (".data ++
          (joinSep ", " cols).data ++ ") VALUES (".data ++
          (joinSep ", " (List.replicate cols.length "%s")).data ++ ")".data) := by
        rw [insert_sql, data_append, data_append, data_append, data_append,
          data_append, data_append]
    _ = cols.length := by
        rw [countChar_append, countChar_append, countChar_append,
          countChar_append, countChar_append, countChar_append,
          h1, h2, h3, h4, ht, countChar_joinSep_zero cols hc,
          countChar_joinSep_placeholders]
        omega

/-- The three header replacements together act as the spec's single
character map: space, hyphen and period become underscore, everything else
is unchanged. -/
lemma replace_chain (l : List Char) :
    replaceChar (replaceChar (replaceChar l ' ' '_') '-' '_') '.' '_' =
      l.map specSanitizeChar := by
  induction l with
  | nil => rfl
  | cons c cs ih =>
    simp only [replaceChar, List.map_cons, List.map_map] at ih ⊢
    congr 1
    by_cases h1 : c = ' '
    · subst h1; decide
    · by_cases h2 : c = '-'
      · subst h2; decide
      · by_cases h3 : c = '.'
        · subst h3; decide
        · simp [specSanitizeChar, h1, h2, h3]

/-- The sanitized header is the character-by-character image of the raw
header under the spec's replacement map. -/
lemma sanitizeHeader_spec (s : String) :
    sanitizeHeader s = String.mk (s.data.map specSanitizeChar) := by
  unfold sanitizeHeader
  rw [replace_chain]

/-- Rendering a digit position always yields a decimal digit character. -/
lemma digitChar_isDigit (d : Nat) : (digitChar d).isDigit = true := by
  have h : d % 10 < 10 := Nat.mod_lt _ (by omega)
  have hall : ∀ k : Fin 10, (Char.ofNat (48 + k.val)).isDigit = true := by decide
  exact hall ⟨d % 10, h⟩

/-- Every rendered timestamp matches the `YYYY-MM-DD HH:MM:SS` shape. -/
lemma formatOk_strftime (t : Ts) : formatOk t.strftime = true := by
  simp [formatOk, Ts.strftime, pad4, pad2, digitChar_isDigit]

/-- When every execute succeeds, the loop issues one call per row in order,
with the converted cell values, and counts all rows. -/
lemma insertLoop_ok (sql : String)
    (ex : Nat → List (Option String) → Except Exc Unit)
    (h : ∀ k v, ex k v = Except.ok ()) :
    ∀ (rows : List (List Cell)) (n : Nat),
      insertLoop sql ex rows n =
        (rows.map fun r => ⟨sql, r.map convert_timestamp⟩,
          Except.ok (n + rows.length)) := by
  intro rows
  induction rows with
  | nil => intro n; simp [insertLoop]
  | cons r rs ih =>
    intro n
    simp only [insertLoop, h, ih (n + 1), List.map_cons, List.length_cons,
      Prod.mk.injEq, Except.ok.injEq, true_and]
    omega

/-- Every call the loop issues carries the prepared statement and the
converted values of one of the rows. -/
lemma insertLoop_calls_mem (sql : String)
    (ex : Nat → List (Option String) → Except Exc Unit) :
    ∀ (rows : List (List Cell)) (n : Nat),
      ∀ c ∈ (insertLoop sql ex rows n).1,
        ∃ r ∈ rows, c = ⟨sql, r.map convert_timestamp⟩ := by
  intro rows
  induction rows with
  | nil => intro n c hc; simp [insertLoop] at hc
  | cons r rs ih =>
    intro n c hc
    unfold insertLoop at hc
    rcases hex : ex n (r.map convert_timestamp) with e | u
    · rw [hex] at hc
      simp only [List.mem_singleton] at hc
      exact ⟨r, List.mem_cons_self r rs, hc⟩
    · rw [hex] at hc
      simp only [List.mem_cons] at hc
      rcases hc with hc | hc
      · exact ⟨r, List.mem_cons_self r rs, hc⟩
      · rcases ih (n + 1) c hc with ⟨r2, hr2, hcr⟩
        exact ⟨r2, List.mem_cons_of_mem _ hr2, hcr⟩

lemma insert_data_calls_aux (df : Dataset) (columns : List String) (t : String)
    (ex : Nat → List (Option String) → Except Exc Unit)
    (cm : Except Exc Unit) :
    (insert_data df columns t ex cm).calls =
      (insertLoop (insert_sql t columns) ex df.rows 0).1 := by
  rcases hlp : insertLoop (insert_sql t columns) ex df.rows 0 with ⟨calls, res⟩
  unfold insert_data
  rw [hlp]
  rcases res with e | records
  · by_cases he : e.isDbError <;> simp [he]
  · rcases cm with e2 | u
    · by_cases he : e2.isDbError <;> simp [he]
    · rfl

/-- C2: for every raw header, the sanitized column name replaces every
space, hyphen and period with an underscore, alters no other character (the
rendering is the character-by-character image under the spec's map, so
positions and all other characters are preserved), and the result is wrapped
in backquotes.  `quoteCol` is a function of the header alone, so the same
header yields the same sanitized name at every reference within a run. -/
theorem sanitize_column_claim (h : String) :
    quoteCol h = "`" ++ String.mk (h.data.map specSanitizeChar) ++ "`" ∧
    (sanitizeHeader h).data.length = h.data.length := by
  constructor
  · rw [quoteCol, sanitizeHeader_spec]
  · rw [sanitizeHeader_spec]
    simp

/-- C3: the row value converter maps a missing (NaN) cell to the explicit
absent value `none` (database NULL), which in particular is neither the
empty string nor the literal text "nan". -/
theorem convert_nan_claim :
    convert_timestamp Cell.nan = none ∧
    decide (convert_timestamp Cell.nan = some "") = false ∧
    decide (convert_timestamp Cell.nan = some "nan") = false := by
  decide

/-- C4: a timestamp-typed cell converts to a string matching
`YYYY-MM-DD HH:MM:SS` exactly — nineteen characters, no fractional seconds
(the nanosecond component does not influence the rendering) and no timezone
— and every other non-missing value converts to its plain textual
representation.  The validity hypothesis delimits the component ranges an
actual `pandas.Timestamp` can take, on which the embedding of `strftime` is
faithful. -/
theorem timestamp_format_claim (t : Ts) (hv : t.valid = true) :
    formatOk t.strftime = true ∧
    convert_timestamp (Cell.timestamp t) = some t.strftime ∧
    (∀ n : Nat,
      Ts.strftime ⟨t.year, t.month, t.day, t.hour, t.minute, t.second, n⟩ =
        t.strftime) ∧
    (∀ s : String, convert_timestamp (Cell.other s) = some s) :=
  ⟨formatOk_strftime t, rfl, fun _ => rfl, fun _ => rfl⟩

/-- Witness for the timestamp claim: the spec's example timestamp
2024-01-02 03:04:05 (with a nonzero nanosecond part) is valid and renders in
the required shape, with the fraction dropped. -/
theorem timestamp_format_claim_check :
    Ts.valid ⟨2024, 1, 2, 3, 4, 5, 123456789⟩ = true ∧
    formatOk (Ts.strftime ⟨2024, 1, 2, 3, 4, 5, 123456789⟩) = true ∧
    Ts.strftime ⟨2024, 1, 2, 3, 4, 5, 123456789⟩ = "2024-01-02 03:04:05" :=
  ⟨by decide,
    (timestamp_format_claim ⟨2024, 1, 2, 3, 4, 5, 123456789⟩ (by decide)).1,
    by decide⟩

/-- C1 (amended): when every row execute and the final commit succeed,
`insert_data` logs and prints the total count of inserted rows — the number
of rows of the dataset — for operator-facing reporting, and returns the
success flag `True`; it returns the failure flag `False` only when some step
failed.  (The count itself is reported, not returned: see the
counterexample.) -/
theorem insert_reporting_amended (df : Dataset) (columns : List String)
    (t : String) (ex : Nat → List (Option String) → Except Exc Unit)
    (cm : Except Exc Unit) :
    ((∀ k v, ex k v = Except.ok ()) → cm = Except.ok () →
      (insert_data df columns t ex cm).result = Except.ok true ∧
      Event.log ("Successfully inserted " ++ toString df.rows.length ++
        " records into " ++ t) ∈ (insert_data df columns t ex cm).events ∧
      Event.print ("Successfully inserted " ++ toString df.rows.length ++
        " records into " ++ t) ∈ (insert_data df columns t ex cm).events) ∧
    ((insert_data df columns t ex cm).result = Except.ok false →
      ¬ ((∀ k v, ex k v = Except.ok ()) ∧ cm = Except.ok ())) := by
  have hres : ∀ (hex : ∀ k v, ex k v = Except.ok ())
      (hcm : cm = Except.ok ()),
      (insert_data df columns t ex cm).result = Except.ok true := by
    intro hex hcm
    unfold insert_data
    rw [insertLoop_ok _ ex hex df.rows 0, hcm]
  have hmem : ∀ (hex : ∀ k v, ex k v = Except.ok ())
      (hcm : cm = Except.ok ()),
      Event.log ("Successfully inserted " ++ toString df.rows.length ++
        " records into " ++ t) ∈ (insert_data df columns t ex cm).events ∧
      Event.print ("Successfully inserted " ++ toString df.rows.length ++
        " records into " ++ t) ∈ (insert_data df columns t ex cm).events := by
    intro hex hcm
    unfold insert_data
    rw [insertLoop_ok _ ex hex df.rows 0, hcm]
    simp
  refine ⟨fun hex hcm => ⟨hres hex hcm, (hmem hex hcm).1, (hmem hex hcm).2⟩, ?_⟩
  rintro hfalse ⟨hex, hcm⟩
  rw [hres hex hcm] at hfalse
  simp at hfalse

/-- Witness for the amended insert-reporting claim at a concrete two-row
dataset with all steps succeeding. -/
theorem insert_reporting_amended_check :
    (insert_data ⟨["A"], [[Cell.nan], [Cell.other "7"]]⟩ ["`A`"] "tbl"
        (fun _ _ => Except.ok ()) (Except.ok ())).result = Except.ok true ∧
    Event.log ("Successfully inserted " ++ toString (2 : Nat) ++
        " records into " ++ "tbl") ∈
      (insert_data ⟨["A"], [[Cell.nan], [Cell.other "7"]]⟩ ["`A`"] "tbl"
        (fun _ _ => Except.ok ()) (Except.ok ())).events :=
  have h := (insert_reporting_amended ⟨["A"], [[Cell.nan], [Cell.other "7"]]⟩
    ["`A`"] "tbl" (fun _ _ => Except.ok ()) (Except.ok ())).1
    (fun _ _ => rfl) rfl
  ⟨h.1, h.2.1⟩

/-- Counterexample to C1 as stated: two fully successful runs over datasets
with two and three rows return the identical value `True`, so the value
`insert_data` returns is the boolean success flag, not the record count —
were the return value the number of inserted rows, these two results would
differ. -/
theorem insert_return_counterexample :
    (insert_data ⟨["A"], [[Cell.other "x"], [Cell.other "y"]]⟩ ["`A`"] "tbl"
        (fun _ _ => Except.ok ()) (Except.ok ())).result =
      (insert_data ⟨["A"], [[Cell.other "x"], [Cell.other "y"], [Cell.other "z"]]⟩
        ["`A`"] "tbl" (fun _ _ => Except.ok ()) (Except.ok ())).result ∧
    (⟨["A"], [[Cell.other "x"], [Cell.other "y"]]⟩ : Dataset).rows.length = 2 ∧
    (⟨["A"], [[Cell.other "x"], [Cell.other "y"], [Cell.other "z"]]⟩ :
        Dataset).rows.length = 3 ∧
    (insert_data ⟨["A"], [[Cell.other "x"], [Cell.other "y"]]⟩ ["`A`"] "tbl"
        (fun _ _ => Except.ok ()) (Except.ok ())).result = Except.ok true :=
  ⟨rfl, rfl, rfl, rfl⟩

/-- C8: the row inserter builds exactly one parameterized statement — the
column list with one `%s` placeholder per column, a function of the table
name and column list only — and reuses that same statement text for every
row; the calls are the dataset's rows in their original order, each carrying
the row's cells converted by `convert_timestamp` in column order as
parameters, never concatenated into the SQL text. -/
theorem insert_single_statement_claim (df : Dataset) (columns : List String)
    (t : String) (ex : Nat → List (Option String) → Except Exc Unit)
    (cm : Except Exc Unit) (hex : ∀ k v, ex k v = Except.ok ()) :
    (insert_data df columns t ex cm).calls =
      df.rows.map (fun r => ⟨insert_sql t columns, r.map convert_timestamp⟩) ∧
    ∀ c ∈ (insert_data df columns t ex cm).calls,
      c.sql = insert_sql t columns := by
  have h1 : (insert_data df columns t ex cm).calls =
      df.rows.map (fun r => ⟨insert_sql t columns, r.map convert_timestamp⟩) := by
    rw [insert_data_calls_aux, insertLoop_ok _ ex hex df.rows 0]
  refine ⟨h1, ?_⟩
  intro c hc
  rw [h1] at hc
  rcases List.mem_map.mp hc with ⟨r, _, hcr⟩
  rw [← hcr]

/-- Witness for the single-statement claim on a concrete two-row dataset. -/
theorem insert_single_statement_claim_check :
    (insert_data ⟨["Full Name"], [[Cell.other "Jane Doe"], [Cell.nan]]⟩
        ["`Full_Name`"] "tbl" (fun _ _ => Except.ok ()) (Except.ok ())).calls =
      [[Cell.other "Jane Doe"], [Cell.nan]].map
        (fun r => ⟨insert_sql "tbl" ["`Full_Name`"], r.map convert_timestamp⟩) :=
  (insert_single_statement_claim _ _ _ _ _ (fun _ _ => rfl)).1

/-- C10: when schema synchronization succeeds, its sanitized column list has
exactly one entry per dataset column in header order; the insert statement
contains exactly one placeholder per entry of that list (counted by its `%`
characters, given no `%` occurs in the table or header names); and every
tuple passed to execute holds exactly one converted value per dataset
column, carrying that same statement text. -/
theorem column_alignment_claim (ds : Dataset) (t : String)
    (rx : Nat → List (Option String) → Except Exc Unit) (cm : Except Exc Unit)
    (hrect : ∀ r ∈ ds.rows, r.length = ds.headers.length)
    (ht : countChar '%' t.data = 0)
    (hh : ∀ hd ∈ ds.headers, countChar '%' hd.data = 0) :
    (create_table_if_not_exists (Except.ok ds) (fun _ => Except.ok ())
        (Except.ok ()) t).result =
      Except.ok (some (ds, ds.headers.map quoteCol)) ∧
    (ds.headers.map quoteCol).length = ds.headers.length ∧
    countChar '%' (insert_sql t (ds.headers.map quoteCol)).data =
      ds.headers.length ∧
    ∀ c ∈ (insert_data ds (ds.headers.map quoteCol) t rx cm).calls,
      c.sql = insert_sql t (ds.headers.map quoteCol) ∧
      c.params.length = ds.headers.length := by
  refine ⟨rfl, by simp, ?_, ?_⟩
  · have hcols : ∀ c ∈ ds.headers.map quoteCol, countChar '%' c.data = 0 := by
      intro c hc
      rcases List.mem_map.mp hc with ⟨hd, hhd, hchd⟩
      rw [← hchd]
      exact quoteCol_percent hd (hh hd hhd)
    rw [insert_sql_percent t (ds.headers.map quoteCol) ht hcols]
    simp
  · intro c hc
    rw [insert_data_calls_aux] at hc
    rcases insertLoop_calls_mem _ rx ds.rows 0 c hc with ⟨r, hr, hcr⟩
    subst hcr
    refine ⟨rfl, ?_⟩
    show (r.map convert_timestamp).length = ds.headers.length
    rw [List.length_map]
    exact hrect r hr

/-- Witness for the alignment claim on the spec's end-to-end example:
headers "Full Name", "Score-1", "Submitted On", one row, no percent signs
anywhere, and three placeholders in the insert statement. -/
theorem column_alignment_claim_check :
    (["Full Name", "Score-1", "Submitted On"].map quoteCol =
      ["`Full_Name`", "`Score_1`", "`Submitted_On`"]) ∧
    countChar '%' (insert_sql "form_responses"
      (["Full Name", "Score-1", "Submitted On"].map quoteCol)).data = 3 :=
  ⟨by decide,
    (column_alignment_claim
      ⟨["Full Name", "Score-1", "Submitted On"],
        [[Cell.other "Jane Doe", Cell.other "42",
          Cell.timestamp ⟨2024, 1, 2, 3, 4, 5, 0⟩]]⟩
      "form_responses" (fun _ _ => Except.ok ()) (Except.ok ())
      (by decide) (by decide) (by decide)).2.2.1⟩

/-- Counterexample to C5 as stated: an I/O failure while reading the source
file (pandas raising a file-not-found `OSError`, which is not a
`mysql.connector.Error`) escapes `create_table_if_not_exists` instead of
being turned into the null pair, and the function logs and prints nothing on
the way out. -/
theorem schema_io_error_counterexample :
    (create_table_if_not_exists
        (Except.error (Exc.ioError "No such file or directory"))
        (fun _ => Except.ok ()) (Except.ok ()) "form_responses").result =
      Except.error (Exc.ioError "No such file or directory") ∧
    (create_table_if_not_exists
        (Except.error (Exc.ioError "No such file or directory"))
        (fun _ => Except.ok ()) (Except.ok ()) "form_responses").events = [] :=
  ⟨rfl, rfl⟩

/-- C5 (amended): for database failures — the SQL statement rejected with a
`mysql.connector.Error` — schema synchronization logs, prints, and returns
the null pair, and the caller then closes the connection and aborts without
attempting any insert; but a failure while reading the spreadsheet that is
not a `mysql.connector.Error` (I/O error, malformed file) is not caught and
propagates past the function boundary. -/
theorem schema_error_amended (ds : Dataset) (m : String) (e : Exc)
    (cfg : Config) (he : e.isDbError = false) :
    (create_table_if_not_exists (Except.ok ds)
        (fun _ => Except.error (Exc.dbError m)) (Except.ok ())
        cfg.table).result = Except.ok none ∧
    Event.logError ("Error creating table: " ++ m) ∈
      (create_table_if_not_exists (Except.ok ds)
        (fun _ => Except.error (Exc.dbError m)) (Except.ok ())
        cfg.table).events ∧
    Event.print ("Error creating table: " ++ m) ∈
      (create_table_if_not_exists (Except.ok ds)
        (fun _ => Except.error (Exc.dbError m)) (Except.ok ())
        cfg.table).events ∧
    (create_table_if_not_exists (Except.error e) (fun _ => Except.ok ())
        (Except.ok ()) cfg.table).result = Except.error e ∧
    (main ⟨true, cfg, ConnectOutcome.connected, Except.ok ds,
        fun _ => Except.error (Exc.dbError m), Except.ok (),
        fun _ _ => Except.ok (), Except.ok ()⟩).events.all
      (fun ev => !ev.isInsertExec) = true ∧
    Event.closeConn ∈ (main ⟨true, cfg, ConnectOutcome.connected,
        Except.ok ds, fun _ => Except.error (Exc.dbError m), Except.ok (),
        fun _ _ => Except.ok (), Except.ok ()⟩).events := by
  refine ⟨rfl,
    by simp [create_table_if_not_exists, Exc.isDbError, Exc.msg],
    by simp [create_table_if_not_exists, Exc.isDbError, Exc.msg],
    by simp [create_table_if_not_exists, he],
    ?_, ?_⟩ <;>
  simp [main, read_config, connect_to_database, create_table_if_not_exists,
    Exc.isDbError, Event.isInsertExec]

/-- Witness for the amended schema-failure claim: a concrete rejected SQL
statement yields the null pair, while the `isDbError` side condition is
discharged for a concrete non-database exception. -/
theorem schema_error_amended_check :
    Exc.isDbError (Exc.ioError "boom") = false ∧
    (create_table_if_not_exists (Except.ok ⟨["A"], []⟩)
        (fun _ => Except.error (Exc.dbError "bad SQL")) (Except.ok ())
        default_config.table).result = Except.ok none :=
  ⟨rfl, (schema_error_amended ⟨["A"], []⟩ "bad SQL" (Exc.ioError "boom")
    default_config rfl).1⟩

/-- C6: on a connection-level failure the connector logs the failure with
its underlying cause, prints an operator-facing message, and returns `None`
rather than raising; the caller then stops: the whole run attempts no
create-table execution, no insert and no commit, exits through the normal
path, and no exception escapes. -/
theorem connector_failure_claim (cause : String) (cfg : Config)
    (re : Except Exc Dataset) (ce : String → Except Exc Unit)
    (cc : Except Exc Unit)
    (rx : Nat → List (Option String) → Except Exc Unit)
    (ic : Except Exc Unit) :
    (connect_to_database (ConnectOutcome.failure cause)).result = none ∧
    Event.logError ("Error connecting to MySQL database: " ++ cause) ∈
      (connect_to_database (ConnectOutcome.failure cause)).events ∧
    Event.print ("Error connecting to MySQL database: " ++ cause) ∈
      (connect_to_database (ConnectOutcome.failure cause)).events ∧
    (main ⟨true, cfg, ConnectOutcome.failure cause, re, ce, cc, rx,
        ic⟩).events.all
      (fun ev => !ev.isCreateExec && !ev.isInsertExec && !ev.isCommit) =
      true ∧
    (main ⟨true, cfg, ConnectOutcome.failure cause, re, ce, cc, rx,
        ic⟩).uncaught = none ∧
    (main ⟨true, cfg, ConnectOutcome.failure cause, re, ce, cc, rx,
        ic⟩).exitCode = none := by
  refine ⟨rfl, by simp [connect_to_database], by simp [connect_to_database],
    ?_, rfl, rfl⟩
  simp [main, read_config, connect_to_database, Event.isCreateExec,
    Event.isInsertExec, Event.isCommit]

/-- C7: when no configuration file exists, the loader writes the template
populated with the placeholder credentials and placeholder table and file
names, prints operator-facing messages, and the process exits with the
non-zero status 1; the run attempts no database connection, no table
creation, no insert and no commit. -/
theorem missing_config_claim (cfg : Config) (co : ConnectOutcome)
    (re : Except Exc Dataset) (ce : String → Except Exc Unit)
    (cc : Except Exc Unit)
    (rx : Nat → List (Option String) → Except Exc Unit)
    (ic : Except Exc Unit) :
    (main ⟨false, cfg, co, re, ce, cc, rx, ic⟩).exitCode = some 1 ∧
    Event.writeConfig "config.ini" default_config ∈
      (main ⟨false, cfg, co, re, ce, cc, rx, ic⟩).events ∧
    Event.print "Please update the config file with your database credentials and try again." ∈
      (main ⟨false, cfg, co, re, ce, cc, rx, ic⟩).events ∧
    default_config.database = "your_database" ∧
    default_config.user = "your_username" ∧
    default_config.password = "your_password" ∧
    default_config.table = "form_responses" ∧
    default_config.excel_file = "google_form_responses.xlsx" ∧
    (main ⟨false, cfg, co, re, ce, cc, rx, ic⟩).events.all
      (fun ev => !ev.isConnect && !ev.isCreateExec && !ev.isInsertExec &&
        !ev.isCommit) = true := by
  refine ⟨rfl, ?_, ?_, rfl, rfl, rfl, rfl, rfl, ?_⟩ <;>
  simp [main, read_config, Event.isConnect, Event.isCreateExec,
    Event.isInsertExec, Event.isCommit]

/-- C9: table creation is idempotent — against the modelled MySQL semantics
of `CREATE TABLE IF NOT EXISTS`, applying the schema synchronization's
create effect twice for the same table name leaves exactly the state after
one application (nothing duplicated or altered), the second invocation of
`create_table_if_not_exists` returns successfully rather than raising, the
creation is committed inside the function itself (not deferred to the end of
the run), and the statement text issued is literally of the
`CREATE TABLE IF NOT EXISTS` form. -/
theorem create_table_idempotent_claim (db : Db) (ds : Dataset) (t : String) :
    execCreateIfNotExists
        (execCreateIfNotExists db t (ds.headers.map quoteCol)) t
        (ds.headers.map quoteCol) =
      execCreateIfNotExists db t (ds.headers.map quoteCol) ∧
    (create_table_if_not_exists (Except.ok ds) (fun _ => Except.ok ())
        (Except.ok ()) t).result =
      Except.ok (some (ds, ds.headers.map quoteCol)) ∧
    Event.commit ∈ (create_table_if_not_exists (Except.ok ds)
        (fun _ => Except.ok ()) (Except.ok ()) t).events ∧
    (create_table_sql t (ds.headers.map quoteCol)).data =
      "CREATE TABLE IF NOT EXISTS ".data ++
        (t ++ " (id INT AUTO_INCREMENT PRIMARY KEY, " ++
          joinSep ", " ((ds.headers.map quoteCol).map fun col =>
            col ++ " TEXT") ++ ")").data := by
  refine ⟨?_, rfl, ?_, ?_⟩
  · unfold execCreateIfNotExists
    by_cases hdb : Db.hasTable db t
    · simp [hdb]
    · have houter : Db.hasTable ((t, ds.headers.map quoteCol) :: db) t =
          true := by
        unfold Db.hasTable
        simp
      simp [hdb, houter]
  · simp [create_table_if_not_exists]
  · simp [create_table_sql, data_append, List.append_assoc]

end ExcelToMysql
